import Mathlib

set_option maxHeartbeats 1000000

/-!
Shallow embedding of the goal-conditioned manipulation core of the repository:
the spatial transform library (`gym/utils/transformations.py`), the
goal/reward evaluator and constructor validation of
`gym/envs/robotics/hand/move.py`, and the dual-arm action decoding of
`gym/envs/yumi/yumi_constrained.py`.

Numpy float arrays are embedded as lists/tuples of exact scalars: the pure
quaternion algebra is stated over an arbitrary commutative ring (instantiated
at ℚ for concrete evaluation and at ℝ where `sqrt`/`arccos`/`pi` appear).
-/

namespace GymSpec

open Real
open Classical

noncomputable section

/-- Reward mode, fixed at construction (`reward_type` in the source). -/
inductive RewardType where
  | sparse
  | dense
  deriving DecidableEq

/-- Scalar-first quaternion `(w, x, y, z)`, the layout of the 4-component
slices `pose[..., 3:]` used throughout the source. -/
structure Quat (α : Type) where
  w : α
  x : α
  y : α
  z : α
  deriving DecidableEq

variable {α : Type} [CommRing α]

/-- Modelled from the spec: the quaternion product `quat_a ⊗ quat_b`
(scalar-first Hamilton product); the helper
`gym.envs.robotics.rotations.quat_mul` is not under `src/`. -/
def quat_mul (a b : Quat α) : Quat α :=
  ⟨a.w * b.w - a.x * b.x - a.y * b.y - a.z * b.z,
   a.w * b.x + a.x * b.w + a.y * b.z - a.z * b.y,
   a.w * b.y - a.x * b.z + a.y * b.w + a.z * b.x,
   a.w * b.z + a.x * b.y - a.y * b.x + a.z * b.w⟩

/-- Modelled from the spec: quaternion conjugate (negated vector part);
`gym.envs.robotics.rotations.quat_conjugate` is not under `src/`. -/
def quat_conjugate (q : Quat α) : Quat α := ⟨q.w, -q.x, -q.y, -q.z⟩

/-- Modelled from the spec: the identity quaternion `(1, 0, 0, 0)`;
`gym.envs.robotics.rotations.quat_identity` is not under `src/`. -/
def quat_identity : Quat α := ⟨1, 0, 0, 0⟩

/-- Componentwise negation `-q` of the 4-vector holding a quaternion. -/
def quat_neg (q : Quat α) : Quat α := ⟨-q.w, -q.x, -q.y, -q.z⟩

/-- Componentwise sum of two quaternion 4-vectors (numpy `+`, used by
`_set_action` on `mocap_quat`). -/
def quat_add (a b : Quat α) : Quat α := ⟨a.w + b.w, a.x + b.x, a.y + b.y, a.z + b.z⟩

/-- Componentwise scaling of a quaternion 4-vector (numpy `*= scalar`). -/
def quat_scale (k : α) (q : Quat α) : Quat α := ⟨k * q.w, k * q.x, k * q.y, k * q.z⟩

/-- Squared magnitude of a quaternion; `= 1` is the unit-quaternion invariant
of the data model. -/
def quat_normSq (q : Quat α) : α := q.w * q.w + q.x * q.x + q.y * q.y + q.z * q.z

/-- Componentwise sum of two 3-vectors. -/
def vadd (u v : α × α × α) : α × α × α := (u.1 + v.1, u.2.1 + v.2.1, u.2.2 + v.2.2)

/-- Componentwise difference of two 3-vectors. -/
def vsub (u v : α × α × α) : α × α × α := (u.1 - v.1, u.2.1 - v.2.1, u.2.2 - v.2.2)

/-- Scaling of a 3-vector by a scalar. -/
def vscale (k : α) (v : α × α × α) : α × α × α := (k * v.1, k * v.2.1, k * v.2.2)

/-- Modelled from the spec: `rotate(quat, vec)` as the vector part of
`q ⊗ (0, v) ⊗ conjugate(q)`; `gym.envs.robotics.rotations.quat_rot_vec`
is not under `src/`. -/
def quat_rot_vec (q : Quat α) (v : α × α × α) : α × α × α :=
  let r := quat_mul q (quat_mul ⟨0, v.1, v.2.1, v.2.2⟩ (quat_conjugate q))
  (r.x, r.y, r.z)

/-- First three entries of a pose array (`pose[..., :3]`). -/
def vec3OfList (l : List α) : α × α × α := (l.getD 0 0, l.getD 1 0, l.getD 2 0)

/-- A 3-vector as a list. -/
def listOfVec3 (v : α × α × α) : List α := [v.1, v.2.1, v.2.2]

/-- The quaternion stored in a 4-entry array slice. -/
def quatOfList (l : List α) : Quat α := ⟨l.getD 0 0, l.getD 1 0, l.getD 2 0, l.getD 3 0⟩

/-- A quaternion as a 4-entry list. -/
def listOfQuat (q : Quat α) : List α := [q.w, q.x, q.y, q.z]

/-- `np.r_[v, 1., 0., 0., 0.]` padding of a position-only pose with the
identity quaternion, applied by `apply_tf` when an argument has size 3. -/
def pad7 (l : List α) : List α := if l.length = 3 then l ++ [1, 0, 0, 0] else l

/-- `get_tf(world_to_b, world_to_a)` from `gym/utils/transformations.py`
(lines 31-37): relative pose `a_to_b`; position is the rotated position
difference, orientation is `world_to_b.quat ⊗ conjugate(world_to_a.quat)`. -/
def get_tf (world_to_b world_to_a : List α) : List α :=
  let pos_tf := vsub (vec3OfList world_to_b) (vec3OfList world_to_a)
  let q := quat_mul quat_identity (quat_conjugate (quatOfList (world_to_a.drop 3)))
  let pos_tf2 := quat_rot_vec q pos_tf
  let quat_tf :=
    quat_mul (quatOfList (world_to_b.drop 3)) (quat_conjugate (quatOfList (world_to_a.drop 3)))
  listOfVec3 pos_tf2 ++ listOfQuat quat_tf

/-- `apply_tf(a_to_b, world_to_a)` from `gym/utils/transformations.py`
(lines 48-61): compose; size-3 inputs are padded with the identity
quaternion, and the result drops the quaternion exactly when `world_to_a`
had size 3 (`pos_only` flag of the source). -/
def apply_tf (a_to_b world_to_a : List α) : List α :=
  let wa := pad7 world_to_a
  let ab := pad7 a_to_b
  let new_pos := vadd (vec3OfList wa) (quat_rot_vec (quatOfList (wa.drop 3)) (vec3OfList ab))
  let new_quat := quat_mul (quatOfList (wa.drop 3)) (quatOfList (ab.drop 3))
  if world_to_a.length = 3 then listOfVec3 new_pos
  else listOfVec3 new_pos ++ listOfQuat new_quat

/-- `np.clip(x, lo, hi)` on scalars. -/
def clip (x lo hi : ℝ) : ℝ := min hi (max lo x)

/-- Euclidean norm of a 3-vector (`np.linalg.norm` on the last axis). -/
def norm3 (v : ℝ × ℝ × ℝ) : ℝ := Real.sqrt (v.1 * v.1 + v.2.1 * v.2.1 + v.2.2 * v.2.2)

/-- `np.mod` for a positive modulus: `a - b * floor (a / b)`. -/
def fmod (a b : ℝ) : ℝ := a - b * (⌊a / b⌋ : ℤ)

/-- Modelled from the spec: wrap angles into the canonical range,
`(angles + pi) % (2 pi) - pi`; `gym.envs.robotics.rotations.normalize_angles`
is not under `src/`. -/
def normalize_angles (a : ℝ) : ℝ := fmod (a + π) (2 * π) - π

/-- `quat_angle_diff(quat_a, quat_b)` from `gym/utils/transformations.py`
(lines 9-12): `|normalize_angles(2 * arccos(clip((qa ⊗ conj qb).w, -1, 1)))|`. -/
def quat_angle_diff (quat_a quat_b : Quat ℝ) : ℝ :=
  let quat_diff := quat_mul quat_a (quat_conjugate quat_b)
  let angle_diff := 2 * Real.arccos (clip quat_diff.w (-1) 1)
  |normalize_angles angle_diff|

/-- `np.arctan2(y, x)`. -/
def arctan2 (y x : ℝ) : ℝ :=
  if 0 < x then Real.arctan (y / x)
  else if x < 0 then
    (if 0 ≤ y then Real.arctan (y / x) + π else Real.arctan (y / x) - π)
  else if 0 < y then π / 2
  else if y < 0 then -(π / 2)
  else 0

/-- `np.interp(x, [-1, 1], [0.05, 0.30])`: clamp to `[-1, 1]`, then map
linearly onto `[0.05, 0.30]` (used for the inter-gripper separation). -/
def interp_m11 (x : ℝ) : ℝ := 0.05 + (clip x (-1) 1 + 1) / 2 * (0.30 - 0.05)

/-- `_goal_distance(goal_a, goal_b, ignore_target_rotation)` from
`gym/envs/robotics/hand/move.py` (lines 39-54) on a single 7-component goal:
positional distance and, unless rotation is ignored, the quaternion angle
`2 * arccos(clip((qa ⊗ conj qb).w, -1, 1))`. -/
def goal_distance (ignore_target_rotation : Bool) (goal_a goal_b : List ℝ) : ℝ × ℝ :=
  let d_pos := norm3 (vsub (vec3OfList goal_a) (vec3OfList goal_b))
  let d_rot :=
    if ignore_target_rotation then 0
    else
      2 * Real.arccos (clip
        (quat_mul (quatOfList (goal_a.drop 3))
          (quat_conjugate (quatOfList (goal_b.drop 3)))).w (-1) 1)
  (d_pos, d_rot)

/-- Construction-time configuration of `MovingHandEnv` read by the
goal/reward evaluator. -/
structure MHConfig where
  reward_type : RewardType
  ignore_target_rotation : Bool
  success_on_grasp_only : Bool
  distance_threshold : ℝ
  rotation_threshold : ℝ
  ignore_rotation_ctrl : Bool

/-- `MovingHandEnv._is_success` (lines 314-324): product of 0/1 indicators
for the position and rotation thresholds and, if `success_on_grasp_only`,
for the 8th goal component (palm distance) being below `0.08`. -/
def is_success (cfg : MHConfig) (achieved_goal desired_goal : List ℝ) : ℝ :=
  let d := goal_distance cfg.ignore_target_rotation achieved_goal desired_goal
  let achieved_pos : ℝ := if d.1 < cfg.distance_threshold then 1 else 0
  let achieved_rot : ℝ := if d.2 < cfg.rotation_threshold then 1 else 0
  let achieved_all := achieved_pos * achieved_rot
  if cfg.success_on_grasp_only then
    achieved_all * (if achieved_goal.getD 7 0 < 0.08 then 1 else 0)
  else achieved_all

/-- `MovingHandEnv.compute_reward` (lines 277-288); `weights` is the optional
`info['weights']` entry. Sparse: weighted success minus one; dense:
`-(10 d_pos + d_rot)`. -/
def compute_reward (cfg : MHConfig) (achieved_goal goal : List ℝ) (weights : Option ℝ) : ℝ :=
  match cfg.reward_type with
  | RewardType.sparse =>
    let success := is_success cfg achieved_goal goal
    let success := (match weights with
      | some w => success * w
      | none => success)
    success - 1
  | RewardType.dense =>
    let d := goal_distance cfg.ignore_target_rotation achieved_goal goal;
    -(10 * d.1 + d.2)

/-- The mutable simulator state of `MovingHandEnv` touched by `_set_action`
(mocap pose of the forearm); episode state mutated by `step`/`reset`. -/
structure MHSimState where
  mocap_pos : ℝ × ℝ × ℝ
  mocap_quat : Quat ℝ

/-- An environment value: immutable configuration plus mutable episode state. -/
structure MovingHandEnvM where
  cfg : MHConfig
  sim : MHSimState

/-- Lower forearm workspace bound (`forearm_bounds`, line 82). -/
def forearm_low : ℝ × ℝ × ℝ := (0.65, 0.3, 0.42)

/-- Upper forearm workspace bound (`forearm_bounds`, line 82). -/
def forearm_high : ℝ × ℝ × ℝ := (1.75, 1.2, 1.0)

/-- Componentwise clip of a 3-vector to box bounds. -/
def clip3 (v lo hi : ℝ × ℝ × ℝ) : ℝ × ℝ × ℝ :=
  (clip v.1 lo.1 hi.1, clip v.2.1 lo.2.1 hi.2.1, clip v.2.2 lo.2.2 hi.2.2)

/-- `MovingHandEnv._set_arm_pose` (lines 257-262) for a 7-component pose:
position clipped to the forearm bounds, quaternion stored as given. -/
def set_arm_pose (_s : MHSimState) (pos : ℝ × ℝ × ℝ) (quat : Quat ℝ) : MHSimState :=
  ⟨clip3 pos forearm_low forearm_high, quat⟩

/-- The forearm part of `MovingHandEnv._set_action` (lines 293-312): scale
`action[20:]` by `0.1`, zero the quaternion delta if rotation control is
ignored, add the deltas to the mocap pose and store it via
`set_arm_pose`. (The 20 hand-actuator entries mutate only other sim state.) -/
def set_action (cfg : MHConfig) (s : MHSimState) (action : List ℝ) : MHSimState :=
  let forearm_ctrl := (action.drop 20).map (fun v => v * 0.1)
  let pos_delta := vec3OfList forearm_ctrl
  let quat_delta := quatOfList (forearm_ctrl.drop 3)
  let quat_delta := if cfg.ignore_rotation_ctrl then quat_scale 0 quat_delta else quat_delta
  let new_pos := vadd s.mocap_pos pos_delta
  let new_quat := quat_add s.mocap_quat quat_delta
  set_arm_pose s new_pos new_quat

/-- `compute_reward` as the environment method: it reads only the
construction-time configuration of the environment value. -/
def env_compute_reward (e : MovingHandEnvM) (achieved_goal goal : List ℝ)
    (weights : Option ℝ) : ℝ :=
  compute_reward e.cfg achieved_goal goal weights

/-- Euclidean norm of a list of scalars (`np.linalg.norm`). -/
def normL (l : List ℝ) : ℝ := Real.sqrt ((l.map (fun v => v * v)).sum)

/-- The `arm` constructor argument of `YumiEnv` (`'left'`, `'right'` or
`'both'`, validated at construction). -/
inductive YumiArm where
  | left
  | right
  | both
  deriving DecidableEq

/-- `YumiEnv.has_left_arm` (yumi_env.py lines 267-269):
`arm == 'left' or arm == 'both'`. -/
def yumi_has_left_arm : YumiArm → Bool
  | YumiArm.left => true
  | YumiArm.both => true
  | YumiArm.right => false

/-- `YumiEnv.has_right_arm` (yumi_env.py lines 263-265):
`arm == 'right' or arm == 'both'`. -/
def yumi_has_right_arm : YumiArm → Bool
  | YumiArm.right => true
  | YumiArm.both => true
  | YumiArm.left => false

/-- `YumiEnv.has_two_arms` (yumi_env.py lines 271-273): `arm == 'both'`. -/
def yumi_has_two_arms : YumiArm → Bool
  | YumiArm.both => true
  | _ => false

/-- Construction-time configuration of `YumiEnv` read by its goal/reward
evaluator, in the reachable no-object reach configuration (the sparse
branch with an object raises `NotImplementedError` in the source). -/
structure YumiConfig where
  arm : YumiArm
  reward_type : RewardType
  distance_threshold : ℝ

/-- `YumiEnv._is_success` (yumi_env.py lines 181-183) on a 3-component goal
slice: the 0/1 indicator of the positional distance being below the
distance threshold. -/
def yumi_is_success (distance_threshold : ℝ) (achieved_goal desired_goal : List ℝ) : ℝ :=
  if norm3 (vsub (vec3OfList achieved_goal) (vec3OfList desired_goal)) < distance_threshold
  then 1 else 0

/-- `YumiEnv.compute_reward` (yumi_env.py lines 60-75) on a 6-component
goal pair (left gripper position then right gripper position): sparse is
the indicator-weighted per-arm success sum minus the arm count
(`success - 2` with two arms, `success - 1` otherwise); dense is minus the
norm of the full goal difference. -/
def yumi_compute_reward (cfg : YumiConfig) (achieved_goal desired_goal : List ℝ) : ℝ :=
  match cfg.reward_type with
  | RewardType.sparse =>
    let success_l := (if yumi_has_left_arm cfg.arm then (1 : ℝ) else 0) *
      yumi_is_success cfg.distance_threshold (achieved_goal.take 3) (desired_goal.take 3)
    let success_r := (if yumi_has_right_arm cfg.arm then (1 : ℝ) else 0) *
      yumi_is_success cfg.distance_threshold (achieved_goal.drop 3) (desired_goal.drop 3)
    let success := success_l + success_r
    if yumi_has_two_arms cfg.arm then success - 2 else success - 1
  | RewardType.dense =>
    -(normL (List.zipWith (fun x y => x - y) achieved_goal desired_goal))

/-- Post-settle object state read back from the simulator inside
`_reset_sim`: object pose position and free-joint velocity (6 components). -/
structure ObjState where
  pos : ℝ × ℝ × ℝ
  vel : List ℝ

/-- Lower `table_safe_bounds` (line 83). -/
def table_safe_low : ℝ × ℝ := (1.10, 0.43)

/-- Upper `table_safe_bounds` (line 83). -/
def table_safe_high : ℝ × ℝ := (1.49, 1.05)

/-- `_check_range(a, a_min, a_max, include_bounds=True)` (lines 57-61) on a
2-component array: all components within the inclusive bounds. -/
def check_range2 (a lo hi : ℝ × ℝ) : Prop :=
  (lo.1 ≤ a.1 ∧ a.1 ≤ hi.1) ∧ (lo.2 ≤ a.2 ∧ a.2 ≤ hi.2)

/-- `object_still` test of `_reset_sim` (line 391): joint-velocity norm
below the stillness threshold `0.8`. -/
def object_still (s : ObjState) : Prop := normL s.vel < 0.8

/-- `object_on_table` test of `_reset_sim` (line 398): planar position
within the table-safe bounds. -/
def object_on_table (s : ObjState) : Prop :=
  check_range2 (s.pos.1, s.pos.2.1) table_safe_low table_safe_high

/-- The validation predicate of the no-snapshot, with-object branch of
`_reset_sim` (lines 397-400): the loop breaks iff it holds. -/
def reset_valid (s : ObjState) : Prop := object_still s ∧ object_on_table s

/-- The unbounded rejection-sampling loop of `_reset_sim` (lines 352-401),
with the simulator and RNG abstracted as the stream `draws` of post-settle
candidate states: the loop returns the first candidate satisfying
`reset_valid`.  Termination is exactly the hypothesis that some candidate
is valid; no error is ever produced. -/
def reset_sim (draws : ℕ → ObjState) (h : ∃ n, reset_valid (draws n)) : ObjState :=
  draws (Nat.find h)

/-- The constructor flags of `MovingHandEnv.__init__` involved in eager
validation (lines 86-106). `grasp_state` abstracts `grasp_state is not None`
after optional loading. -/
structure MHParams where
  reward_type : RewardType
  has_object : Bool
  ignore_rotation_ctrl : Bool
  ignore_target_rotation : Bool
  success_on_grasp_only : Bool
  grasp_state : Bool
  grasp_state_reset_p : ℚ

/-- `true` on `Except.ok`, `false` on `Except.error`. -/
def except_ok {ε β : Type} : Except ε β → Bool
  | Except.ok _ => true
  | Except.error _ => false

/-- The eager flag validation of `MovingHandEnv.__init__` (lines 93-106), in
source order: each invalid combination raises (here: returns an error)
before any environment is built. -/
def mh_init (p : MHParams) : Except String MHParams :=
  if p.grasp_state = true ∧ p.grasp_state_reset_p ≤ 0 then
    Except.error "grasp_state_reset_p must be greater than zero if grasp_state is specified!"
  else if p.ignore_rotation_ctrl = true ∧ p.ignore_target_rotation = false then
    Except.error "Target rotation must be ignored if arm cannot rotate!"
  else if p.success_on_grasp_only = true ∧ p.reward_type ≠ RewardType.sparse then
    Except.error "Parameter success_on_grasp_only requires sparse rewards!"
  else if p.success_on_grasp_only = true ∧ p.has_object = false then
    Except.error "Parameter success_on_grasp_only requires object to be grasped!"
  else Except.ok p

/-- `np.clip(action, -1, 1)` on a whole action vector
(`YumiConstrainedEnv.step`, line 188). -/
def clip_action (a : List ℝ) : List ℝ := a.map (fun x => clip x (-1) 1)

/-- `YumiConstrainedEnv._unpack_action` (lines 142-161): separation command,
grasp-center position delta, optional quaternion delta (identity when
rotation control is disabled), optional finger controls (`-1` when finger
control is disabled). -/
def unpack_action (rotation_ctrl fingers_ctrl : Bool) (action : List ℝ) :
    ℝ × (ℝ × ℝ × ℝ) × Quat ℝ × ℝ × ℝ :=
  let dist_between_grippers := action.getD 0 0
  let grasp_center_pos_delta := vec3OfList (action.drop 1)
  let grasp_center_quat_delta :=
    if rotation_ctrl then quatOfList (action.drop 4) else ⟨1, 0, 0, 0⟩
  let off2 := if rotation_ctrl then 8 else 4
  let l_fingers_ctrl := if fingers_ctrl then action.getD off2 0 else -1
  let r_fingers_ctrl := if fingers_ctrl then action.getD (off2 + 1) 0 else -1
  (dist_between_grippers, grasp_center_pos_delta, grasp_center_quat_delta,
   l_fingers_ctrl, r_fingers_ctrl)

/-- The decoding pipeline at the top of `YumiConstrainedEnv.step`
(lines 186-193): clip the action, unpack it, map the separation command
onto `[0.05, 0.30]`. -/
def yumi_step_decode (rotation_ctrl fingers_ctrl : Bool) (action : List ℝ) :
    ℝ × (ℝ × ℝ × ℝ) × Quat ℝ × ℝ × ℝ :=
  let a := clip_action action
  let u := unpack_action rotation_ctrl fingers_ctrl a
  (interp_m11 u.1, u.2.1, u.2.2.1, u.2.2.2.1, u.2.2.2.2)

/-- The grasp-center geometry computed by `YumiConstrainedEnv.step`
(lines 186-219). -/
structure YumiStepGeom where
  sep : ℝ
  left_target : List ℝ
  right_target : List ℝ
  left_yaw : ℝ
  right_yaw : ℝ

/-- `YumiConstrainedEnv.step` geometry (lines 186-219), with the current
grasp-center position `c` read back from the simulator: target grasp-center
pose with identity orientation (rotation control disabled raises in the
source), gripper targets offset by half the mapped separation along the
lateral axis via `apply_tf`, yaws from the vector connecting the targets. -/
def yumi_step_geometry (fingers_ctrl : Bool) (c : ℝ × ℝ × ℝ) (action : List ℝ) :
    YumiStepGeom :=
  let a := clip_action action
  let u := unpack_action false fingers_ctrl a
  let dist_between_grippers := interp_m11 u.1
  let target_pose := listOfVec3 (vadd c (vscale 0.2 u.2.1)) ++ [(1 : ℝ), 0, 0, 0]
  let t0 := (apply_tf (listOfVec3 (0, dist_between_grippers / 2, 0) ++ [(1 : ℝ), 0, 0, 0])
    target_pose).take 3
  let t1 := (apply_tf (listOfVec3 (0, -(dist_between_grippers / 2), 0) ++ [(1 : ℝ), 0, 0, 0])
    target_pose).take 3
  let vx := t0.getD 0 0 - t1.getD 0 0
  let vy := t0.getD 1 0 - t1.getD 1 0
  let right_yaw := arctan2 vy vx + π / 2
  let left_yaw := arctan2 (-vy) (-vx) + π / 2
  ⟨dist_between_grippers, t0, t1, left_yaw, right_yaw⟩

/-- Pose used as `world_to_child` in the concrete round-trip evaluation:
position `0`, unit quaternion `(3/5, 0, 4/5, 0)`. -/
def c1_p : List ℚ := [0, 0, 0, 3/5, 0, 4/5, 0]

/-- Reference pose used in the concrete round-trip evaluation: position `0`,
unit quaternion `(3/5, 4/5, 0, 0)`. -/
def c1_w : List ℚ := [0, 0, 0, 3/5, 4/5, 0, 0]

/-- A constant stream of post-settle candidate states used to exercise the
reset loop: object at `(1.2, 0.6, 0.43)` with zero joint velocity. -/
def c7_draws : ℕ → ObjState := fun _ => ⟨(1.2, 0.6, 0.43), [0, 0, 0, 0, 0, 0]⟩

/-!
Theorems.  First, structural evaluation lemmas for the list-based pose
encoding; then one theorem per claim (with its witness or counterexample).
-/

theorem vec3OfList_cons (x y z : α) (l : List α) : vec3OfList (x :: y :: z :: l) = (x, y, z) :=
  rfl

theorem quatOfList_cons (w x y z : α) (l : List α) :
    quatOfList (w :: x :: y :: z :: l) = ⟨w, x, y, z⟩ :=
  rfl

theorem drop_three_cons (x y z : α) (l : List α) : List.drop 3 (x :: y :: z :: l) = l :=
  rfl

theorem take_three_cons (x y z : α) (l : List α) :
    List.take 3 (x :: y :: z :: l) = [x, y, z] :=
  rfl

/-- C1: the claimed round-trip `get_tf(apply_tf(p, w), w) ≈ p` fails on the
code.  At the unit-quaternion poses `c1_p` and `c1_w` the position component
round-trips exactly, but the orientation comes back as
`(3/5, 0, -28/125, 96/125)` instead of `(3/5, 0, 4/5, 0)`: `apply_tf`
composes orientations as `w ⊗ p` while `get_tf` extracts `b ⊗ conj(w)`,
so the round-trip orientation is `w ⊗ p ⊗ conj(w) ≠ p`. -/
theorem c1_roundtrip_orientation_mismatch :
    quat_normSq (quatOfList (c1_p.drop 3)) = 1 ∧
    quat_normSq (quatOfList (c1_w.drop 3)) = 1 ∧
    (get_tf (apply_tf c1_p c1_w) c1_w).take 3 = c1_p.take 3 ∧
    get_tf (apply_tf c1_p c1_w) c1_w = [0, 0, 0, 3/5, 0, -28/125, 96/125] ∧
    get_tf (apply_tf c1_p c1_w) c1_w ≠ c1_p := by
  have happ : apply_tf c1_p c1_w = [0, 0, 0, 9/25, 12/25, 12/25, 16/25] := by
    norm_num [apply_tf, pad7, c1_p, c1_w, vec3OfList_cons, quatOfList_cons, drop_three_cons,
      quat_mul, quat_conjugate, quat_rot_vec, quatOfList, vec3OfList, vadd, listOfVec3,
      listOfQuat]
  have hget : get_tf (apply_tf c1_p c1_w) c1_w = [0, 0, 0, 3/5, 0, -28/125, 96/125] := by
    rw [happ]
    norm_num [get_tf, c1_w, vec3OfList_cons, quatOfList_cons, drop_three_cons,
      quat_mul, quat_conjugate, quat_identity, quat_rot_vec, quatOfList, vec3OfList, vsub,
      listOfVec3, listOfQuat]
  refine ⟨by norm_num [c1_p, drop_three_cons, quatOfList_cons, quat_normSq],
    by norm_num [c1_w, drop_three_cons, quatOfList_cons, quat_normSq], ?_, hget, ?_⟩
  · rw [hget]
    norm_num [c1_p]
  · rw [hget]
    norm_num [c1_p]

theorem clip_of_mem (x lo hi : ℝ) (h1 : lo ≤ x) (h2 : x ≤ hi) : clip x lo hi = x := by
  unfold clip
  rw [max_eq_right h1, min_eq_right h2]

theorem neg_one_le_clip (x : ℝ) : -1 ≤ clip x (-1) 1 :=
  le_min (by norm_num) (le_max_left _ _)

theorem clip_le_one (x : ℝ) : clip x (-1) 1 ≤ 1 := min_le_left _ _

theorem clip_clip (x : ℝ) : clip (clip x (-1) 1) (-1) 1 = clip x (-1) 1 :=
  clip_of_mem _ _ _ (neg_one_le_clip x) (clip_le_one x)

theorem clip_action_idem (a : List ℝ) : clip_action (clip_action a) = clip_action a := by
  unfold clip_action
  rw [List.map_map]
  congr 1
  funext x
  exact clip_clip x

/-- C10: `YumiConstrainedEnv.step` clips the incoming action componentwise to
`[-1, 1]` before decoding, so the decoded commands (mapped inter-gripper
separation, grasp-center position delta, quaternion delta, finger controls)
of any action agree with those of its componentwise-clipped version. -/
theorem c10_step_clip_invariance : ∀ (rotation_ctrl fingers_ctrl : Bool) (a : List ℝ),
    yumi_step_decode rotation_ctrl fingers_ctrl a
      = yumi_step_decode rotation_ctrl fingers_ctrl (clip_action a) := by
  intro rc fc a
  unfold yumi_step_decode
  rw [clip_action_idem]

theorem mh_init_ok_iff (p : MHParams) : except_ok (mh_init p) = true ↔
    (¬(p.grasp_state = true ∧ p.grasp_state_reset_p ≤ 0) ∧
     ¬(p.ignore_rotation_ctrl = true ∧ p.ignore_target_rotation = false) ∧
     ¬(p.success_on_grasp_only = true ∧ p.reward_type ≠ RewardType.sparse) ∧
     ¬(p.success_on_grasp_only = true ∧ p.has_object = false)) := by
  unfold mh_init
  split_ifs with g0 g1 g2 g3
  · simp only [except_ok]
    constructor
    · intro h; simp at h
    · intro hc; exact absurd g0 hc.1
  · simp only [except_ok]
    constructor
    · intro h; simp at h
    · intro hc; exact absurd g1 hc.2.1
  · simp only [except_ok]
    constructor
    · intro h; simp at h
    · intro hc; exact absurd g2 hc.2.2.1
  · simp only [except_ok]
    constructor
    · intro h; simp at h
    · intro hc; exact absurd g3 hc.2.2.2
  · simp only [except_ok]
    exact iff_of_true trivial ⟨g0, g1, g2, g3⟩

/-- C8: invalid flag combinations are rejected eagerly by the constructor
validation: `ignore_rotation_ctrl` without `ignore_target_rotation` errors,
`success_on_grasp_only` without sparse rewards errors,
`success_on_grasp_only` without an object errors, and any accepted flag
combination satisfies none of those invalid combinations. -/
theorem c8_init_validation : ∀ p : MHParams,
    ((p.ignore_rotation_ctrl = true ∧ p.ignore_target_rotation = false) →
      except_ok (mh_init p) = false) ∧
    ((p.success_on_grasp_only = true ∧ p.reward_type ≠ RewardType.sparse) →
      except_ok (mh_init p) = false) ∧
    ((p.success_on_grasp_only = true ∧ p.has_object = false) →
      except_ok (mh_init p) = false) ∧
    (except_ok (mh_init p) = true →
      ¬(p.ignore_rotation_ctrl = true ∧ p.ignore_target_rotation = false) ∧
      ¬(p.success_on_grasp_only = true ∧ p.reward_type ≠ RewardType.sparse) ∧
      ¬(p.success_on_grasp_only = true ∧ p.has_object = false)) := by
  intro p
  have hiff := mh_init_ok_iff p
  refine ⟨fun h => ?_, fun h => ?_, fun h => ?_,
    fun hok => ⟨(hiff.mp hok).2.1, (hiff.mp hok).2.2.1, (hiff.mp hok).2.2.2⟩⟩ <;>
    cases hb : except_ok (mh_init p)
  · rfl
  · exact absurd h (hiff.mp hb).2.1
  · rfl
  · exact absurd h (hiff.mp hb).2.2.1
  · rfl
  · exact absurd h (hiff.mp hb).2.2.2

/-- Witness for C8: a configuration with `ignore_rotation_ctrl` set but
`ignore_target_rotation` unset is rejected, and the default-like
configuration is accepted. -/
theorem c8_init_validation_witness :
    except_ok (mh_init ⟨RewardType.sparse, false, true, false, false, false, 1⟩) = false ∧
    ¬(MHParams.success_on_grasp_only ⟨RewardType.dense, true, false, true, false, false, 1⟩ = true ∧
      MHParams.has_object ⟨RewardType.dense, true, false, true, false, false, 1⟩ = false) :=
  ⟨(c8_init_validation ⟨RewardType.sparse, false, true, false, false, false, 1⟩).1 ⟨rfl, rfl⟩,
   ((c8_init_validation ⟨RewardType.dense, true, false, true, false, false, 1⟩).2.2.2
     (by rfl)).2.2⟩

/-- C4: `compute_reward` is pure: as an environment method it reads only the
construction-time configuration, so its value is unchanged both by a
`_set_action`-style mutation of the episode state and by replacing the
episode state with any other state; identical arguments always yield the
identical result. -/
theorem c4_compute_reward_pure : ∀ (e : MovingHandEnvM) (action achieved_goal goal : List ℝ)
    (w : Option ℝ) (s2 : MHSimState),
    env_compute_reward ⟨e.cfg, set_action e.cfg e.sim action⟩ achieved_goal goal w
      = env_compute_reward e achieved_goal goal w ∧
    env_compute_reward ⟨e.cfg, s2⟩ achieved_goal goal w
      = env_compute_reward e achieved_goal goal w := by
  intro e action ag g w s2
  exact ⟨rfl, rfl⟩

/-- C7: whenever the abstracted `_reset_sim` rejection-sampling loop returns
(in the with-object, no-snapshot branch), the returned post-settle state
satisfies the validation predicate (planar position inside the table-safe
bounds and joint-velocity norm below `0.8`), and every earlier failing
sample was retried rather than surfaced as an error. -/
theorem c7_reset_validation : ∀ (draws : ℕ → ObjState) (h : ∃ n, reset_valid (draws n)),
    reset_valid (reset_sim draws h) ∧
    ∀ m, m < Nat.find h → ¬reset_valid (draws m) := by
  intro draws h
  exact ⟨Nat.find_spec h, fun m hm => Nat.find_min h hm⟩

theorem c7_draws_valid : reset_valid (c7_draws 0) := by
  constructor
  · unfold object_still normL c7_draws
    norm_num
  · unfold object_on_table check_range2 c7_draws table_safe_low table_safe_high
    norm_num

theorem c7_exists_valid : ∃ n, reset_valid (c7_draws n) := ⟨0, c7_draws_valid⟩

/-- Witness for C7: a concrete valid candidate stream. -/
theorem c7_reset_validation_witness :
    reset_valid (reset_sim c7_draws c7_exists_valid) ∧
    ∀ m, m < Nat.find c7_exists_valid → ¬reset_valid (c7_draws m) :=
  c7_reset_validation c7_draws c7_exists_valid

theorem fmod_nonneg_lt (a b : ℝ) (hb : 0 < b) : 0 ≤ fmod a b ∧ fmod a b < b := by
  have hb' : b ≠ 0 := ne_of_gt hb
  have h : fmod a b = b * Int.fract (a / b) := by
    unfold fmod Int.fract
    field_simp
  constructor
  · rw [h]
    exact mul_nonneg hb.le (Int.fract_nonneg _)
  · rw [h]
    calc b * Int.fract (a / b) < b * 1 := by
          exact mul_lt_mul_of_pos_left (Int.fract_lt_one _) hb
      _ = b := mul_one b

theorem normalize_angles_bounds (t : ℝ) :
    -π ≤ normalize_angles t ∧ normalize_angles t < π := by
  have h := fmod_nonneg_lt (t + π) (2 * π) (by positivity)
  unfold normalize_angles
  constructor
  · linarith [h.1]
  · linarith [h.2]

theorem normalize_angles_of_mem (t : ℝ) (h1 : -π ≤ t) (h2 : t < π) :
    normalize_angles t = t := by
  have hpi := Real.pi_pos
  have hfloor : ⌊(t + π) / (2 * π)⌋ = 0 := by
    rw [Int.floor_eq_zero_iff]
    constructor
    · exact div_nonneg (by linarith) (by linarith)
    · rw [div_lt_one (by linarith)]
      linarith
  unfold normalize_angles fmod
  rw [hfloor]
  push_cast
  ring

theorem normalize_angles_two_pi : normalize_angles (2 * π) = 0 := by
  have hpi := Real.pi_pos
  have hdiv : (2 * π + π) / (2 * π) = 3 / 2 := by
    field_simp
    ring
  have hfloor : ⌊(2 * π + π) / (2 * π)⌋ = 1 := by
    rw [hdiv, Int.floor_eq_iff]
    push_cast
    norm_num
  unfold normalize_angles fmod
  rw [hfloor]
  push_cast
  ring

/-- C5: the angular-difference metric always lands in the canonical range
`[0, pi]`, and for every unit quaternion `q` both `quat_angle_diff q q = 0`
and `quat_angle_diff q (-q) = 0` (double-cover invariance). -/
theorem c5_quat_angle_diff_canonical : ∀ quat_a quat_b : Quat ℝ,
    quat_normSq quat_a = 1 → quat_normSq quat_b = 1 →
    (0 ≤ quat_angle_diff quat_a quat_b ∧ quat_angle_diff quat_a quat_b ≤ π) ∧
    quat_angle_diff quat_a quat_a = 0 ∧
    quat_angle_diff quat_a (quat_neg quat_a) = 0 := by
  intro qa qb ha hb
  have hpi := Real.pi_pos
  unfold quat_normSq at ha
  refine ⟨⟨abs_nonneg _, ?_⟩, ?_, ?_⟩
  · simp only [quat_angle_diff]
    have h := normalize_angles_bounds
      (2 * Real.arccos (clip (quat_mul qa (quat_conjugate qb)).w (-1) 1))
    rw [abs_le]
    exact ⟨h.1, h.2.le⟩
  · have hw : (quat_mul qa (quat_conjugate qa)).w = 1 := by
      simp only [quat_mul, quat_conjugate, mul_neg, sub_neg_eq_add]
      linarith
    simp only [quat_angle_diff]
    rw [hw, clip_of_mem 1 (-1) 1 (by norm_num) le_rfl, Real.arccos_one, mul_zero,
      normalize_angles_of_mem 0 (by linarith) hpi, abs_zero]
  · have hw : (quat_mul qa (quat_conjugate (quat_neg qa))).w = -1 := by
      simp only [quat_mul, quat_conjugate, quat_neg, neg_neg, mul_neg, neg_mul, sub_neg_eq_add]
      linarith
    simp only [quat_angle_diff]
    rw [hw, clip_of_mem (-1) (-1) 1 le_rfl (by norm_num), Real.arccos_neg_one,
      normalize_angles_two_pi, abs_zero]

/-- Witness for C5 at the unit quaternions `(3/5, 4/5, 0, 0)` and
`(1, 0, 0, 0)`. -/
theorem c5_quat_angle_diff_canonical_witness :
    (0 ≤ quat_angle_diff (⟨3/5, 4/5, 0, 0⟩ : Quat ℝ) ⟨1, 0, 0, 0⟩ ∧
      quat_angle_diff (⟨3/5, 4/5, 0, 0⟩ : Quat ℝ) ⟨1, 0, 0, 0⟩ ≤ π) ∧
    quat_angle_diff (⟨3/5, 4/5, 0, 0⟩ : Quat ℝ) ⟨3/5, 4/5, 0, 0⟩ = 0 ∧
    quat_angle_diff (⟨3/5, 4/5, 0, 0⟩ : Quat ℝ) (quat_neg ⟨3/5, 4/5, 0, 0⟩) = 0 :=
  c5_quat_angle_diff_canonical ⟨3/5, 4/5, 0, 0⟩ ⟨1, 0, 0, 0⟩
    (by norm_num [quat_normSq]) (by norm_num [quat_normSq])

theorem is_success_zero_or_one (cfg : MHConfig) (achieved_goal desired_goal : List ℝ) :
    is_success cfg achieved_goal desired_goal = 0 ∨
    is_success cfg achieved_goal desired_goal = 1 := by
  simp only [is_success]
  split_ifs <;> norm_num

theorem is_success_all_zero :
    is_success ⟨RewardType.sparse, true, false, 0.05, 0.1, false⟩
      [0, 0, 0, 0, 0, 0, 0] [0, 0, 0, 0, 0, 0, 0] = 1 := by
  simp only [is_success, goal_distance, vec3OfList_cons, vsub, norm3]
  norm_num

theorem yumi_is_success_zero_or_one (distance_threshold : ℝ)
    (achieved_goal desired_goal : List ℝ) :
    yumi_is_success distance_threshold achieved_goal desired_goal = 0 ∨
    yumi_is_success distance_threshold achieved_goal desired_goal = 1 := by
  unfold yumi_is_success
  split_ifs <;> norm_num

/-- C2 counterexample: in `MovingHandEnv`, an info dict carrying weight `2`
makes the sparse reward of a successful pair `2 * 1 - 1 = 1`, outside
`{-1, 0}` and nonzero even though the success predicate holds; and in
`YumiEnv` with two arms, the sparse reward of a pair failing for both arms
is `-2`, also outside `{-1, 0}`. -/
theorem c2_sparse_range_counterexample :
    is_success ⟨RewardType.sparse, true, false, 0.05, 0.1, false⟩
      [0, 0, 0, 0, 0, 0, 0] [0, 0, 0, 0, 0, 0, 0] = 1 ∧
    compute_reward ⟨RewardType.sparse, true, false, 0.05, 0.1, false⟩
      [0, 0, 0, 0, 0, 0, 0] [0, 0, 0, 0, 0, 0, 0] (some 2) = 1 ∧
    compute_reward ⟨RewardType.sparse, true, false, 0.05, 0.1, false⟩
      [0, 0, 0, 0, 0, 0, 0] [0, 0, 0, 0, 0, 0, 0] (some 2) ∉ ({-1, 0} : Set ℝ) ∧
    yumi_compute_reward ⟨YumiArm.both, RewardType.sparse, 0.05⟩
      [1, 0, 0, 1, 0, 0] [0, 0, 0, 0, 0, 0] = -2 ∧
    yumi_compute_reward ⟨YumiArm.both, RewardType.sparse, 0.05⟩
      [1, 0, 0, 1, 0, 0] [0, 0, 0, 0, 0, 0] ∉ ({-1, 0} : Set ℝ) := by
  have hr : compute_reward ⟨RewardType.sparse, true, false, 0.05, 0.1, false⟩
      [0, 0, 0, 0, 0, 0, 0] [0, 0, 0, 0, 0, 0, 0] (some 2) = 1 := by
    simp only [compute_reward, is_success_all_zero]
    norm_num
  have hy : yumi_compute_reward ⟨YumiArm.both, RewardType.sparse, 0.05⟩
      [1, 0, 0, 1, 0, 0] [0, 0, 0, 0, 0, 0] = -2 := by
    simp only [yumi_compute_reward, yumi_is_success, yumi_has_left_arm, yumi_has_right_arm,
      yumi_has_two_arms, take_three_cons, drop_three_cons, vec3OfList_cons, vsub, norm3]
    norm_num
  refine ⟨is_success_all_zero, hr, ?_, hy, ?_⟩
  · rw [hr]
    norm_num
  · rw [hy]
    norm_num

/-- C2 (amended): sparse rewards of the two cited implementations.
`MovingHandEnv.compute_reward` without weights returns `is_success - 1`,
which lies in `{-1, 0}` and is `0` exactly when the success predicate
holds; with a per-sample weight `w` it returns `is_success * w - 1`, so
failures still give exactly `-1` (the failure floor never moves) but a
weighted success gives `w - 1`, which can lie outside `{-1, 0}`.
`YumiEnv.compute_reward` (which takes no weights) returns, with a single
arm, that arm's success indicator minus one, in `{-1, 0}` and `0` exactly
on success; with two arms it returns the success sum minus two, in
`{-2, -1, 0}` and `0` exactly when both arms succeed, so a double failure
yields `-2`. -/
theorem c2_sparse_reward :
    ∀ (cfg : MHConfig) (achieved_goal goal : List ℝ) (w : ℝ) (ycfg : YumiConfig),
    cfg.reward_type = RewardType.sparse →
    ycfg.reward_type = RewardType.sparse →
    ((compute_reward cfg achieved_goal goal none = is_success cfg achieved_goal goal - 1 ∧
      (compute_reward cfg achieved_goal goal none = 0 ↔
        is_success cfg achieved_goal goal = 1) ∧
      compute_reward cfg achieved_goal goal none ∈ ({-1, 0} : Set ℝ)) ∧
     compute_reward cfg achieved_goal goal (some w)
       = is_success cfg achieved_goal goal * w - 1 ∧
     (is_success cfg achieved_goal goal = 0 →
       compute_reward cfg achieved_goal goal (some w) = -1)) ∧
    (ycfg.arm = YumiArm.both →
      yumi_compute_reward ycfg achieved_goal goal
        = yumi_is_success ycfg.distance_threshold (achieved_goal.take 3) (goal.take 3)
          + yumi_is_success ycfg.distance_threshold (achieved_goal.drop 3) (goal.drop 3) - 2 ∧
      yumi_compute_reward ycfg achieved_goal goal ∈ ({-2, -1, 0} : Set ℝ) ∧
      (yumi_compute_reward ycfg achieved_goal goal = 0 ↔
        yumi_is_success ycfg.distance_threshold (achieved_goal.take 3) (goal.take 3) = 1 ∧
        yumi_is_success ycfg.distance_threshold (achieved_goal.drop 3) (goal.drop 3) = 1)) ∧
    (ycfg.arm = YumiArm.left →
      yumi_compute_reward ycfg achieved_goal goal
        = yumi_is_success ycfg.distance_threshold (achieved_goal.take 3) (goal.take 3) - 1 ∧
      yumi_compute_reward ycfg achieved_goal goal ∈ ({-1, 0} : Set ℝ) ∧
      (yumi_compute_reward ycfg achieved_goal goal = 0 ↔
        yumi_is_success ycfg.distance_threshold (achieved_goal.take 3) (goal.take 3) = 1)) ∧
    (ycfg.arm = YumiArm.right →
      yumi_compute_reward ycfg achieved_goal goal
        = yumi_is_success ycfg.distance_threshold (achieved_goal.drop 3) (goal.drop 3) - 1 ∧
      yumi_compute_reward ycfg achieved_goal goal ∈ ({-1, 0} : Set ℝ) ∧
      (yumi_compute_reward ycfg achieved_goal goal = 0 ↔
        yumi_is_success ycfg.distance_threshold (achieved_goal.drop 3) (goal.drop 3) = 1)) := by
  intro cfg ag g w ycfg hsparse hysparse
  have hnone : compute_reward cfg ag g none = is_success cfg ag g - 1 := by
    simp [compute_reward, hsparse]
  have hsome : compute_reward cfg ag g (some w) = is_success cfg ag g * w - 1 := by
    simp [compute_reward, hsparse]
  refine ⟨⟨⟨hnone, ?_, ?_⟩, hsome, ?_⟩, fun harm => ?_, fun harm => ?_, fun harm => ?_⟩
  · rw [hnone]
    constructor <;> intro h <;> linarith
  · rcases is_success_zero_or_one cfg ag g with h | h <;> rw [hnone, h] <;> norm_num
  · intro h0
    rw [hsome, h0]
    ring
  · have hL : yumi_compute_reward ycfg ag g
        = yumi_is_success ycfg.distance_threshold (ag.take 3) (g.take 3)
          + yumi_is_success ycfg.distance_threshold (ag.drop 3) (g.drop 3) - 2 := by
      simp [yumi_compute_reward, hysparse, harm, yumi_has_left_arm, yumi_has_right_arm,
        yumi_has_two_arms]
    refine ⟨hL, ?_, ?_⟩
    · rcases yumi_is_success_zero_or_one ycfg.distance_threshold (ag.take 3) (g.take 3)
          with h1 | h1 <;>
        rcases yumi_is_success_zero_or_one ycfg.distance_threshold (ag.drop 3) (g.drop 3)
          with h2 | h2 <;>
        rw [hL, h1, h2] <;> norm_num
    · rcases yumi_is_success_zero_or_one ycfg.distance_threshold (ag.take 3) (g.take 3)
          with h1 | h1 <;>
        rcases yumi_is_success_zero_or_one ycfg.distance_threshold (ag.drop 3) (g.drop 3)
          with h2 | h2 <;>
        rw [hL, h1, h2] <;> norm_num
  · have hL : yumi_compute_reward ycfg ag g
        = yumi_is_success ycfg.distance_threshold (ag.take 3) (g.take 3) - 1 := by
      simp [yumi_compute_reward, hysparse, harm, yumi_has_left_arm, yumi_has_right_arm,
        yumi_has_two_arms]
    refine ⟨hL, ?_, ?_⟩
    · rcases yumi_is_success_zero_or_one ycfg.distance_threshold (ag.take 3) (g.take 3)
          with h1 | h1 <;> rw [hL, h1] <;> norm_num
    · rcases yumi_is_success_zero_or_one ycfg.distance_threshold (ag.take 3) (g.take 3)
          with h1 | h1 <;> rw [hL, h1] <;> norm_num
  · have hL : yumi_compute_reward ycfg ag g
        = yumi_is_success ycfg.distance_threshold (ag.drop 3) (g.drop 3) - 1 := by
      simp [yumi_compute_reward, hysparse, harm, yumi_has_left_arm, yumi_has_right_arm,
        yumi_has_two_arms]
    refine ⟨hL, ?_, ?_⟩
    · rcases yumi_is_success_zero_or_one ycfg.distance_threshold (ag.drop 3) (g.drop 3)
          with h1 | h1 <;> rw [hL, h1] <;> norm_num
    · rcases yumi_is_success_zero_or_one ycfg.distance_threshold (ag.drop 3) (g.drop 3)
          with h1 | h1 <;> rw [hL, h1] <;> norm_num

/-- Witness for C2 at a sparse `MovingHandEnv` configuration with equal
goals and weight `2`, and a sparse two-arm `YumiEnv` configuration. -/
theorem c2_sparse_reward_witness :
    ((compute_reward ⟨RewardType.sparse, true, false, 0.05, 0.1, false⟩
        [0, 0, 0, 0, 0, 0, 0] [0, 0, 0, 0, 0, 0, 0] none
      = is_success ⟨RewardType.sparse, true, false, 0.05, 0.1, false⟩
          [0, 0, 0, 0, 0, 0, 0] [0, 0, 0, 0, 0, 0, 0] - 1 ∧
      (compute_reward ⟨RewardType.sparse, true, false, 0.05, 0.1, false⟩
          [0, 0, 0, 0, 0, 0, 0] [0, 0, 0, 0, 0, 0, 0] none = 0 ↔
        is_success ⟨RewardType.sparse, true, false, 0.05, 0.1, false⟩
          [0, 0, 0, 0, 0, 0, 0] [0, 0, 0, 0, 0, 0, 0] = 1) ∧
      compute_reward ⟨RewardType.sparse, true, false, 0.05, 0.1, false⟩
        [0, 0, 0, 0, 0, 0, 0] [0, 0, 0, 0, 0, 0, 0] none ∈ ({-1, 0} : Set ℝ)) ∧
     compute_reward ⟨RewardType.sparse, true, false, 0.05, 0.1, false⟩
        [0, 0, 0, 0, 0, 0, 0] [0, 0, 0, 0, 0, 0, 0] (some 2)
      = is_success ⟨RewardType.sparse, true, false, 0.05, 0.1, false⟩
          [0, 0, 0, 0, 0, 0, 0] [0, 0, 0, 0, 0, 0, 0] * 2 - 1 ∧
     (is_success ⟨RewardType.sparse, true, false, 0.05, 0.1, false⟩
        [0, 0, 0, 0, 0, 0, 0] [0, 0, 0, 0, 0, 0, 0] = 0 →
      compute_reward ⟨RewardType.sparse, true, false, 0.05, 0.1, false⟩
        [0, 0, 0, 0, 0, 0, 0] [0, 0, 0, 0, 0, 0, 0] (some 2) = -1)) ∧
    (YumiArm.both = YumiArm.both →
      yumi_compute_reward ⟨YumiArm.both, RewardType.sparse, 0.05⟩
          [0, 0, 0, 0, 0, 0, 0] [0, 0, 0, 0, 0, 0, 0]
        = yumi_is_success 0.05 (([0, 0, 0, 0, 0, 0, 0] : List ℝ).take 3)
            (([0, 0, 0, 0, 0, 0, 0] : List ℝ).take 3)
          + yumi_is_success 0.05 (([0, 0, 0, 0, 0, 0, 0] : List ℝ).drop 3)
            (([0, 0, 0, 0, 0, 0, 0] : List ℝ).drop 3) - 2 ∧
      yumi_compute_reward ⟨YumiArm.both, RewardType.sparse, 0.05⟩
        [0, 0, 0, 0, 0, 0, 0] [0, 0, 0, 0, 0, 0, 0] ∈ ({-2, -1, 0} : Set ℝ) ∧
      (yumi_compute_reward ⟨YumiArm.both, RewardType.sparse, 0.05⟩
          [0, 0, 0, 0, 0, 0, 0] [0, 0, 0, 0, 0, 0, 0] = 0 ↔
        yumi_is_success 0.05 (([0, 0, 0, 0, 0, 0, 0] : List ℝ).take 3)
          (([0, 0, 0, 0, 0, 0, 0] : List ℝ).take 3) = 1 ∧
        yumi_is_success 0.05 (([0, 0, 0, 0, 0, 0, 0] : List ℝ).drop 3)
          (([0, 0, 0, 0, 0, 0, 0] : List ℝ).drop 3) = 1)) ∧
    (YumiArm.both = YumiArm.left →
      yumi_compute_reward ⟨YumiArm.both, RewardType.sparse, 0.05⟩
          [0, 0, 0, 0, 0, 0, 0] [0, 0, 0, 0, 0, 0, 0]
        = yumi_is_success 0.05 (([0, 0, 0, 0, 0, 0, 0] : List ℝ).take 3)
            (([0, 0, 0, 0, 0, 0, 0] : List ℝ).take 3) - 1 ∧
      yumi_compute_reward ⟨YumiArm.both, RewardType.sparse, 0.05⟩
        [0, 0, 0, 0, 0, 0, 0] [0, 0, 0, 0, 0, 0, 0] ∈ ({-1, 0} : Set ℝ) ∧
      (yumi_compute_reward ⟨YumiArm.both, RewardType.sparse, 0.05⟩
          [0, 0, 0, 0, 0, 0, 0] [0, 0, 0, 0, 0, 0, 0] = 0 ↔
        yumi_is_success 0.05 (([0, 0, 0, 0, 0, 0, 0] : List ℝ).take 3)
          (([0, 0, 0, 0, 0, 0, 0] : List ℝ).take 3) = 1)) ∧
    (YumiArm.both = YumiArm.right →
      yumi_compute_reward ⟨YumiArm.both, RewardType.sparse, 0.05⟩
          [0, 0, 0, 0, 0, 0, 0] [0, 0, 0, 0, 0, 0, 0]
        = yumi_is_success 0.05 (([0, 0, 0, 0, 0, 0, 0] : List ℝ).drop 3)
            (([0, 0, 0, 0, 0, 0, 0] : List ℝ).drop 3) - 1 ∧
      yumi_compute_reward ⟨YumiArm.both, RewardType.sparse, 0.05⟩
        [0, 0, 0, 0, 0, 0, 0] [0, 0, 0, 0, 0, 0, 0] ∈ ({-1, 0} : Set ℝ) ∧
      (yumi_compute_reward ⟨YumiArm.both, RewardType.sparse, 0.05⟩
          [0, 0, 0, 0, 0, 0, 0] [0, 0, 0, 0, 0, 0, 0] = 0 ↔
        yumi_is_success 0.05 (([0, 0, 0, 0, 0, 0, 0] : List ℝ).drop 3)
          (([0, 0, 0, 0, 0, 0, 0] : List ℝ).drop 3) = 1)) :=
  c2_sparse_reward ⟨RewardType.sparse, true, false, 0.05, 0.1, false⟩
    [0, 0, 0, 0, 0, 0, 0] [0, 0, 0, 0, 0, 0, 0] 2
    ⟨YumiArm.both, RewardType.sparse, 0.05⟩ rfl rfl

theorem clip_one_eval : clip 1 (-1) 1 = 1 :=
  clip_of_mem _ _ _ (by norm_num) le_rfl

theorem clip_zero_eval : clip 0 (-1) 1 = 0 :=
  clip_of_mem _ _ _ (by norm_num) (by norm_num)

/-- C3: the success predicate is a conjunction: the returned score is always
`0` or `1`, and it is `1` iff `d_pos` is below the position threshold, `d_rot`
is below the rotation threshold and, when the goal encoding carries the
auxiliary 8th grasp-distance feature, that feature is below `0.08`; at the
default thresholds each conjunct can fail alone while the others hold, so
dropping any one conjunct strictly weakens the predicate. -/
theorem c3_success_conjunction :
    (∀ (cfg : MHConfig) (achieved_goal desired_goal : List ℝ),
      (is_success cfg achieved_goal desired_goal = 0 ∨
        is_success cfg achieved_goal desired_goal = 1) ∧
      (is_success cfg achieved_goal desired_goal = 1 ↔
        ((goal_distance cfg.ignore_target_rotation achieved_goal desired_goal).1
            < cfg.distance_threshold ∧
          (goal_distance cfg.ignore_target_rotation achieved_goal desired_goal).2
            < cfg.rotation_threshold ∧
          (cfg.success_on_grasp_only = true → achieved_goal.getD 7 0 < 0.08)))) ∧
    (∃ achieved_goal desired_goal : List ℝ,
      ¬(goal_distance false achieved_goal desired_goal).1 < 0.05 ∧
      (goal_distance false achieved_goal desired_goal).2 < 0.1 ∧
      achieved_goal.getD 7 0 < 0.08) ∧
    (∃ achieved_goal desired_goal : List ℝ,
      (goal_distance false achieved_goal desired_goal).1 < 0.05 ∧
      ¬(goal_distance false achieved_goal desired_goal).2 < 0.1 ∧
      achieved_goal.getD 7 0 < 0.08) ∧
    (∃ achieved_goal desired_goal : List ℝ,
      (goal_distance false achieved_goal desired_goal).1 < 0.05 ∧
      (goal_distance false achieved_goal desired_goal).2 < 0.1 ∧
      ¬achieved_goal.getD 7 0 < 0.08) := by
  refine ⟨fun cfg ag dg => ⟨is_success_zero_or_one cfg ag dg, ?_⟩, ?_, ?_, ?_⟩
  · simp only [is_success]
    by_cases h1 :
      (goal_distance cfg.ignore_target_rotation ag dg).1 < cfg.distance_threshold <;>
    by_cases h2 :
      (goal_distance cfg.ignore_target_rotation ag dg).2 < cfg.rotation_threshold <;>
    cases hso : cfg.success_on_grasp_only <;>
    by_cases h3 : ag.getD 7 0 < 0.08 <;>
    simp [h1, h2, hso, h3]
  · refine ⟨[1, 0, 0, 1, 0, 0, 0, 0], [0, 0, 0, 1, 0, 0, 0], ?_, ?_, ?_⟩
    · simp only [goal_distance, vec3OfList_cons, vsub, norm3]
      norm_num
    · simp only [goal_distance, drop_three_cons, quatOfList_cons, quat_mul, quat_conjugate]
      norm_num [clip_one_eval, Real.arccos_one]
    · show (0 : ℝ) < 0.08
      norm_num
  · refine ⟨[0, 0, 0, 0, 1, 0, 0, 0], [0, 0, 0, 1, 0, 0, 0], ?_, ?_, ?_⟩
    · simp only [goal_distance, vec3OfList_cons, vsub, norm3]
      norm_num
    · simp only [goal_distance, drop_three_cons, quatOfList_cons, quat_mul, quat_conjugate]
      have h3 := Real.pi_gt_three
      norm_num [clip_zero_eval, Real.arccos_zero]
      linarith
    · show (0 : ℝ) < 0.08
      norm_num
  · refine ⟨[0, 0, 0, 1, 0, 0, 0, 0.09], [0, 0, 0, 1, 0, 0, 0], ?_, ?_, ?_⟩
    · simp only [goal_distance, vec3OfList_cons, vsub, norm3]
      norm_num
    · simp only [goal_distance, drop_three_cons, quatOfList_cons, quat_mul, quat_conjugate]
      norm_num [clip_one_eval, Real.arccos_one]
    · show ¬(0.09 : ℝ) < 0.08
      norm_num

/-- C6 counterexample: a position-only (3-vector) `a_to_b` together with a
full 7-vector reference pose yields a 7-vector result, so the result does
not degrade to a 3-vector even though one input is position-only. -/
theorem c6_position_only_child_counterexample :
    (([1, 2, 3] : List ℚ)).length = 3 ∧
    (apply_tf ([1, 2, 3] : List ℚ) [0, 0, 0, 1, 0, 0, 0]).length = 7 ∧
    ¬(apply_tf ([1, 2, 3] : List ℚ) [0, 0, 0, 1, 0, 0, 0]).length = 3 := by
  refine ⟨rfl, ?_, ?_⟩ <;>
    simp [apply_tf, pad7, listOfVec3, listOfQuat]

/-- C6 (amended): `apply_tf` accepts a 3-vector or a 7-vector for each
argument, and an identity quaternion is assumed for every position-only
input; however the result degrades to a 3-vector exactly when the
*reference* argument `world_to_a` is position-only (a position-only
`a_to_b` with a 7-vector reference still yields a 7-vector). -/
theorem c6_apply_tf_shapes : ∀ (a_to_b world_to_a : List ℚ),
    (a_to_b.length = 3 →
      apply_tf a_to_b world_to_a = apply_tf (a_to_b ++ [1, 0, 0, 0]) world_to_a) ∧
    (world_to_a.length = 3 →
      apply_tf a_to_b world_to_a = (apply_tf a_to_b (world_to_a ++ [1, 0, 0, 0])).take 3) ∧
    (apply_tf a_to_b world_to_a).length = (if world_to_a.length = 3 then 3 else 7) := by
  intro ab wa
  refine ⟨fun hab => ?_, fun hwa => ?_, ?_⟩
  · simp [apply_tf, pad7, hab, List.length_append]
  · simp only [apply_tf, pad7, hwa, List.length_append, if_pos, if_neg]
    simp [listOfVec3, listOfQuat]
  · by_cases hwa : wa.length = 3 <;>
      simp [apply_tf, pad7, hwa, List.length_append, listOfVec3, listOfQuat]

/-- Witness for C6: concrete position-only inputs. -/
theorem c6_apply_tf_shapes_witness :
    apply_tf ([1, 2, 3] : List ℚ) [4, 5, 6]
      = (apply_tf ([1, 2, 3] : List ℚ) ([4, 5, 6] ++ [1, 0, 0, 0])).take 3 ∧
    apply_tf ([1, 2, 3] : List ℚ) [0, 0, 0, 1, 0, 0, 0]
      = apply_tf (([1, 2, 3] : List ℚ) ++ [1, 0, 0, 0]) [0, 0, 0, 1, 0, 0, 0] :=
  ⟨(c6_apply_tf_shapes [1, 2, 3] [4, 5, 6]).2.1 rfl,
   (c6_apply_tf_shapes [1, 2, 3] [0, 0, 0, 1, 0, 0, 0]).1 rfl⟩

theorem quat_rot_vec_one (v : α × α × α) : quat_rot_vec ⟨1, 0, 0, 0⟩ v = v := by
  obtain ⟨vx, vy, vz⟩ := v
  simp [quat_rot_vec, quat_mul, quat_conjugate]

theorem take_three_vec (u : α × α × α) (l : List α) :
    (listOfVec3 u ++ l).take 3 = listOfVec3 u :=
  rfl

theorem vec3_of_listOfVec3 (u : α × α × α) : vec3OfList (listOfVec3 u) = u :=
  rfl

theorem listOfVec3_getD_zero (u : α × α × α) : (listOfVec3 u).getD 0 0 = u.1 :=
  rfl

theorem listOfVec3_getD_one (u : α × α × α) : (listOfVec3 u).getD 1 0 = u.2.1 :=
  rfl

theorem apply_tf_id_quat (v c : α × α × α) :
    apply_tf (listOfVec3 v ++ [1, 0, 0, 0]) (listOfVec3 c ++ [1, 0, 0, 0])
      = listOfVec3 (vadd c v) ++ [1, 0, 0, 0] := by
  simp [apply_tf, pad7, listOfVec3, listOfQuat, vadd, drop_three_cons, quatOfList_cons,
    vec3OfList_cons, quat_rot_vec_one, quat_mul]

theorem clip_action_getD (a : List ℝ) (i : ℕ) :
    (clip_action a).getD i 0 = clip (a.getD i 0) (-1) 1 := by
  induction a generalizing i with
  | nil => simp [clip_action, clip_zero_eval]
  | cons x xs ih =>
    cases i with
    | zero => simp [clip_action]
    | succ n => simpa [clip_action] using ih n

theorem arctan2_pos_y (y : ℝ) (hy : 0 < y) : arctan2 y 0 = π / 2 := by
  unfold arctan2
  rw [if_neg (lt_irrefl 0), if_neg (lt_irrefl 0), if_pos hy]

theorem arctan2_neg_y (y : ℝ) (hy : y < 0) : arctan2 y 0 = -(π / 2) := by
  unfold arctan2
  rw [if_neg (lt_irrefl 0), if_neg (lt_irrefl 0), if_neg (not_lt.mpr hy.le), if_pos hy]

theorem interp_m11_bounds (x : ℝ) : 0.05 ≤ interp_m11 x ∧ interp_m11 x ≤ 0.30 := by
  have h1 := neg_one_le_clip x
  have h2 := clip_le_one x
  unfold interp_m11
  constructor <;> nlinarith

/-- C9: the normalized separation command is mapped linearly onto
`[0.05, 0.30]`, the two gripper position targets are offset by plus and
minus half the mapped separation along the grasp center's lateral axis so
that their Euclidean distance equals the mapped separation, and the yaws
derived from the vector connecting the two targets differ by `pi`, so the
grippers face each other. -/
theorem c9_grasp_center_geometry : ∀ (fingers_ctrl : Bool) (c : ℝ × ℝ × ℝ) (a : List ℝ),
    (yumi_step_geometry fingers_ctrl c a).sep
      = 0.05 + (clip (a.getD 0 0) (-1) 1 + 1) / 2 * 0.25 ∧
    0.05 ≤ (yumi_step_geometry fingers_ctrl c a).sep ∧
    (yumi_step_geometry fingers_ctrl c a).sep ≤ 0.30 ∧
    norm3 (vsub (vec3OfList (yumi_step_geometry fingers_ctrl c a).left_target)
        (vec3OfList (yumi_step_geometry fingers_ctrl c a).right_target))
      = (yumi_step_geometry fingers_ctrl c a).sep ∧
    (yumi_step_geometry fingers_ctrl c a).right_yaw
      - (yumi_step_geometry fingers_ctrl c a).left_yaw = π := by
  intro fc c a
  simp only [yumi_step_geometry, unpack_action, clip_action_getD,
    apply_tf_id_quat, take_three_vec, listOfVec3_getD_zero, listOfVec3_getD_one,
    vec3_of_listOfVec3]
  set D := interp_m11 (clip (a.getD 0 0) (-1) 1) with hD
  set P := vadd c (vscale 0.2 (vec3OfList (List.drop 1 (clip_action a)))) with hP
  obtain ⟨hb1, hb2⟩ := interp_m11_bounds (clip (a.getD 0 0) (-1) 1)
  rw [← hD] at hb1 hb2
  have hDpos : 0 < D := by linarith
  have hvy : (vadd P (0, D / 2, 0)).2.1 - (vadd P (0, -(D / 2), 0)).2.1 = D := by
    simp [vadd]
  have hvx : (vadd P (0, D / 2, 0)).1 - (vadd P (0, -(D / 2), 0)).1 = 0 := by
    simp [vadd]
  refine ⟨?_, hb1, hb2, ?_, ?_⟩
  · rw [hD]
    unfold interp_m11
    rw [clip_clip]
    norm_num
  · have hv : vsub (vadd P (0, D / 2, 0)) (vadd P (0, -(D / 2), 0)) = (0, D, 0) := by
      simp [vadd, vsub]
    rw [hv]
    unfold norm3
    simp only []
    rw [show (0 : ℝ) * 0 + D * D + 0 * 0 = D * D by ring]
    exact Real.sqrt_mul_self hDpos.le
  · rw [hvy, hvx, neg_zero, arctan2_pos_y D hDpos, arctan2_neg_y (-D) (by linarith)]
    ring

end

end GymSpec
